import Mathlib

/-!
Verification development for the OpenLayersTMC repository fragments:

* `src/openlayers-master/src/ol/Image.js` — the `ImageWrapper` image-loading
  state machine (states IDLE/LOADING/LOADED/ERROR, `load()`, the two
  completion handlers, `getImage`/`setImage`, `unlistenImage_`).
* `src/ngx-openlayers-master/src/components/style.components_old.ts` — the
  `StyleComponent`/`StyleIconDirective` style-binding bridge.

The JavaScript/TypeScript code is shallowly embedded as pure Lean functions.
Side effects (the "changed" notification, listener registration and
deregistration, the invocation of the pluggable image load function, host
`setStyle` calls, RxJS subscription) are recorded in an explicit effect
trace returned alongside the updated state.  Fallible operations (a
JavaScript null dereference) are embedded as `Option`-returning functions.
-/

/-- The four lifecycle states of `ol/ImageState` (IDLE=0, LOADING=1,
LOADED=2, ERROR=3). -/
inductive ImageState where
  | IDLE
  | LOADING
  | LOADED
  | ERROR
deriving DecidableEq, Repr

/-- An `ol.EventsKey` as returned by `listenOnce`.  Only two keys ever live
in `imageListenerKeys_`: the one for the ERROR event and the one for the
LOAD event; their identity is all the claims need. -/
inductive EventsKey where
  | error
  | load
deriving DecidableEq, Repr

/-- Observable side effects of the `ImageWrapper` methods, in the order the
code performs them: `changed()` notifications, `listenOnce` registrations,
`unlistenByKey` deregistrations, and invocations of the configured
`imageLoadFunction_` (recorded with the `src_` argument it is passed). -/
inductive Effect where
  | changed
  | listenOnce (k : EventsKey)
  | unlisten (k : EventsKey)
  | loadFunction (src : String)
deriving DecidableEq, Repr

/-- An `ol.Extent` rectangle `[minX, minY, maxX, maxY]` in map
coordinates.  Coordinates are embedded as rationals. -/
structure Extent where
  minX : ℚ
  minY : ℚ
  maxX : ℚ
  maxY : ℚ
deriving DecidableEq, Repr

/-- `getHeight` from `ol/extent.js`: `extent[3] - extent[1]`. -/
def getHeight (e : Extent) : ℚ :=
  e.maxY - e.minY

/-- The raster handle (`HTMLCanvasElement|Image|HTMLVideoElement`) owned by
the wrapper.  The claims only use its pixel `height` (read by
`handleImageLoad_`) and the `crossOrigin` attribute set by the
constructor. -/
structure Raster where
  height : ℚ
  crossOrigin : Option String
deriving DecidableEq, Repr

/-- A fresh `new Image()`: no decoded content yet (pixel height 0), no
cross-origin attribute. -/
def Raster.new : Raster :=
  { height := 0, crossOrigin := none }

/-- The state of an `ImageWrapper` object: the fields set by the
constructor (`extent`, `resolution`, `pixelRatio` via `ImageBase.call`,
then `src_`, `image_`, `imageListenerKeys_`, `state`).  The pluggable
`imageLoadFunction_` is an external collaborator; its invocations are
recorded in the effect trace rather than stored. -/
structure ImageWrapper where
  extent : Extent
  resolution : Option ℚ
  pixelRatio : ℚ
  src_ : String
  image_ : Raster
  imageListenerKeys_ : Option (List EventsKey)
  state : ImageState
deriving DecidableEq, Repr

/-- The `ImageWrapper` constructor: starts in `IDLE` with a fresh raster
(whose `crossOrigin` is set when the argument is non-null), a null
listener-key list, and the given extent/resolution/pixelRatio/src. -/
def ImageWrapper.new (extent : Extent) (resolution : Option ℚ)
    (pixelRatio : ℚ) (src : String) (crossOrigin : Option String) :
    ImageWrapper :=
  { extent := extent
    resolution := resolution
    pixelRatio := pixelRatio
    src_ := src
    image_ := { Raster.new with crossOrigin := crossOrigin }
    imageListenerKeys_ := none
    state := ImageState.IDLE }

/-- `ImageWrapper.prototype.getImage`: returns the raster handle. -/
def ImageWrapper.getImage (w : ImageWrapper) : Raster :=
  w.image_

/-- `ImageWrapper.prototype.setImage`: replaces the raster handle and
nothing else. -/
def ImageWrapper.setImage (w : ImageWrapper) (image : Raster) :
    ImageWrapper :=
  { w with image_ := image }

/-- `ImageWrapper.prototype.unlistenImage_`: calls `unlistenByKey` on every
stored listener key, then nulls the list.  When `imageListenerKeys_` is
null, `forEach` on it is a JavaScript null dereference, embedded as
`none`. -/
def ImageWrapper.unlistenImage_ (w : ImageWrapper) :
    Option (ImageWrapper × List Effect) :=
  match w.imageListenerKeys_ with
  | none => none
  | some ks =>
      some ({ w with imageListenerKeys_ := none }, ks.map Effect.unlisten)

/-- `ImageWrapper.prototype.handleImageError_`: sets state to `ERROR`,
deregisters both listeners, then emits `changed()`. -/
def ImageWrapper.handleImageError_ (w : ImageWrapper) :
    Option (ImageWrapper × List Effect) :=
  match ImageWrapper.unlistenImage_ { w with state := ImageState.ERROR } with
  | none => none
  | some (w1, tr) => some (w1, tr ++ [Effect.changed])

/-- `ImageWrapper.prototype.handleImageLoad_`: if `resolution` is
undefined, sets it to `getHeight(extent) / image_.height`; sets state to
`LOADED`, deregisters both listeners, then emits `changed()`. -/
def ImageWrapper.handleImageLoad_ (w : ImageWrapper) :
    Option (ImageWrapper × List Effect) :=
  let w0 :=
    match w.resolution with
    | none => { w with resolution := some (getHeight w.extent / w.image_.height) }
    | some _ => w
  match ImageWrapper.unlistenImage_ { w0 with state := ImageState.LOADED } with
  | none => none
  | some (w1, tr) => some (w1, tr ++ [Effect.changed])

/-- `ImageWrapper.prototype.load`: when the state is `IDLE` or `ERROR`,
sets state to `LOADING`, emits `changed()`, registers the two one-shot
listeners (storing their keys), and invokes the configured load function
with the source URI; otherwise does nothing. -/
def ImageWrapper.load (w : ImageWrapper) : ImageWrapper × List Effect :=
  if w.state = ImageState.IDLE ∨ w.state = ImageState.ERROR then
    ({ w with
        state := ImageState.LOADING
        imageListenerKeys_ := some [EventsKey.error, EventsKey.load] },
      [Effect.changed,
       Effect.listenOnce EventsKey.error,
       Effect.listenOnce EventsKey.load,
       Effect.loadFunction w.src_])
  else
    (w, [])

/-- The events the environment can deliver to an `ImageWrapper`: a direct
`load()` call, the browser firing the raster's load-success signal after
decoding an image of the given pixel height, the browser firing the
failure signal, or a direct `setImage` call. -/
inductive EnvEvent where
  | loadCall
  | success (h : ℚ)
  | failure
  | setImageCall (r : Raster)
deriving DecidableEq, Repr

/-- One environment step.  The platform model: the success/failure signals
reach the wrapper's handlers only while the one-shot listeners are
registered (`imageListenerKeys_` non-null); a success signal first records
the decoded pixel height on the raster element, exactly as the browser
does before dispatching the load event.  A handler hitting a null
listener-key list is a crash, propagated as `none`. -/
def step (w : ImageWrapper) (e : EnvEvent) :
    Option (ImageWrapper × List Effect) :=
  match e with
  | EnvEvent.loadCall => some (ImageWrapper.load w)
  | EnvEvent.success h =>
      if w.imageListenerKeys_.isSome then
        ImageWrapper.handleImageLoad_
          { w with image_ := { w.image_ with height := h } }
      else
        some (w, [])
  | EnvEvent.failure =>
      if w.imageListenerKeys_.isSome then
        ImageWrapper.handleImageError_ w
      else
        some (w, [])
  | EnvEvent.setImageCall r => some (ImageWrapper.setImage w r, [])

/-- Run a list of environment events from a state, accumulating the effect
trace; `none` as soon as any step crashes. -/
def runEvents (w : ImageWrapper) : List EnvEvent →
    Option (ImageWrapper × List Effect)
  | [] => some (w, [])
  | e :: es =>
      match step w e with
      | none => none
      | some (w1, tr1) =>
          match runEvents w1 es with
          | none => none
          | some (w2, tr2) => some (w2, tr1 ++ tr2)

/-- Configurations reachable from a freshly constructed wrapper by
environment steps. -/
inductive Reachable : ImageWrapper → Prop where
  | init (e : Extent) (res : Option ℚ) (pr : ℚ) (src : String)
      (co : Option String) : Reachable (ImageWrapper.new e res pr src co)
  | step (w : ImageWrapper) (ev : EnvEvent) (w1 : ImageWrapper)
      (tr : List Effect) : Reachable w → step w ev = some (w1, tr) →
      Reachable w1

/-- Number of invocations of the configured image load function recorded in
a trace. -/
def countLoadFn (tr : List Effect) : Nat :=
  tr.countP (fun e =>
    match e with
    | Effect.loadFunction _ => true
    | _ => false)

/-- The state transitions the spec allows: stutter, `IDLE → LOADING`,
`ERROR → LOADING` (retry), `LOADING → LOADED`, `LOADING → ERROR`. -/
def allowedTransition (s t : ImageState) : Prop :=
  s = t ∨
  (s = ImageState.IDLE ∧ t = ImageState.LOADING) ∨
  (s = ImageState.ERROR ∧ t = ImageState.LOADING) ∨
  (s = ImageState.LOADING ∧ t = ImageState.LOADED) ∨
  (s = ImageState.LOADING ∧ t = ImageState.ERROR)

/-- The `@Input()` fields of `StyleIconDirective`
(`style.components_old.ts`): a flat record of optional icon-style
attributes, all unset until Angular binds them. -/
structure StyleIconInputs where
  anchor : Option (ℚ × ℚ)
  anchorXUnits : Option String
  anchorYUnits : Option String
  anchorOrigin : Option String
  color : Option (ℚ × ℚ × ℚ × ℚ)
  crossOrigin : Option String
  img : Option String
  offset : Option (ℚ × ℚ)
  offsetOrigin : Option String
  opacity : Option ℚ
  scale : Option ℚ
  snapToPixel : Option Bool
  rotateWithView : Option Bool
  rotation : Option ℚ
  size : Option (ℚ × ℚ)
  imgSize : Option (ℚ × ℚ)
  src : Option String
deriving DecidableEq, Repr

/-- The option record passed to `new style.Icon({...})` by
`StyleComponent.update`. -/
structure Icon where
  anchor : Option (ℚ × ℚ)
  anchorOrigin : Option String
  anchorXUnits : Option String
  anchorYUnits : Option String
  color : Option (ℚ × ℚ × ℚ × ℚ)
  crossOrigin : Option String
  img : Option String
  offset : Option (ℚ × ℚ)
  offsetOrigin : Option String
  opacity : Option ℚ
  scale : Option ℚ
  snapToPixel : Option Bool
  rotateWithView : Option Bool
  rotation : Option ℚ
  size : Option (ℚ × ℚ)
  imgSize : Option (ℚ × ℚ)
  src : Option String
deriving DecidableEq, Repr

/-- A `style.Style` object as built by `StyleComponent.update`: only the
`image` option is supplied. -/
structure Style where
  image : Icon
deriving DecidableEq, Repr

/-- The style object `StyleComponent.update` builds from the child
directive's current inputs: every directive field is passed through to the
`Icon` options verbatim. -/
def buildStyle (d : StyleIconInputs) : Style :=
  { image :=
    { anchor := d.anchor
      anchorOrigin := d.anchorOrigin
      anchorXUnits := d.anchorXUnits
      anchorYUnits := d.anchorYUnits
      color := d.color
      crossOrigin := d.crossOrigin
      img := d.img
      offset := d.offset
      offsetOrigin := d.offsetOrigin
      opacity := d.opacity
      scale := d.scale
      snapToPixel := d.snapToPixel
      rotateWithView := d.rotateWithView
      rotation := d.rotation
      size := d.size
      imgSize := d.imgSize
      src := d.src } }

/-- The host `FeatureComponent`, as far as `StyleComponent` touches it: it
holds the style last pushed via `setStyle`. -/
structure FeatureComponent where
  style : Option Style
deriving DecidableEq, Repr

/-- `FeatureComponent.setStyle`: stores the pushed style. -/
def FeatureComponent.setStyle (f : FeatureComponent) (s : Style) :
    FeatureComponent :=
  { f with style := some s }

/-- Observable actions of `StyleComponent`: a `setStyle` push to the host
feature, and subscribing to the child directive's `onChanged` emitter. -/
inductive SCEffect where
  | setStyle (s : Style)
  | subscribeChild
deriving DecidableEq, Repr

/-- Number of `setStyle` pushes in a `StyleComponent` action trace. -/
def countSetStyle (tr : List SCEffect) : Nat :=
  tr.countP (fun e =>
    match e with
    | SCEffect.setStyle _ => true
    | _ => false)

/-- The mutable state of a `StyleComponent`: its host feature (`_host_`)
and whether `childSubscription$` is active. -/
structure StyleComponent where
  hostF : FeatureComponent
  subscribed : Bool
deriving DecidableEq, Repr

/-- The `StyleComponent` constructor: stores the injected host feature;
no subscription exists yet. -/
def StyleComponent.new (feature : FeatureComponent) : StyleComponent :=
  { hostF := feature, subscribed := false }

/-- `StyleComponent.update`: builds a fresh style from the child
directive's inputs and pushes it to the host via `setStyle`. -/
def StyleComponent.update (c : StyleComponent) (d : StyleIconInputs) :
    StyleComponent × List SCEffect :=
  ({ c with hostF := c.hostF.setStyle (buildStyle d) },
    [SCEffect.setStyle (buildStyle d)])

/-- `StyleComponent.ngAfterContentInit`: calls `update()` first, then
subscribes to the child directive's `onChanged` emitter. -/
def StyleComponent.ngAfterContentInit (c : StyleComponent)
    (d : StyleIconInputs) : StyleComponent × List SCEffect :=
  let p := StyleComponent.update c d
  ({ p.1 with subscribed := true }, p.2 ++ [SCEffect.subscribeChild])

/-- Helper: `load` on an `IDLE` or `ERROR` wrapper starts a loading
episode. -/
theorem ImageWrapper.load_active (w : ImageWrapper)
    (h : w.state = ImageState.IDLE ∨ w.state = ImageState.ERROR) :
    ImageWrapper.load w =
      ({ w with
          state := ImageState.LOADING
          imageListenerKeys_ := some [EventsKey.error, EventsKey.load] },
        [Effect.changed,
         Effect.listenOnce EventsKey.error,
         Effect.listenOnce EventsKey.load,
         Effect.loadFunction w.src_]) := by
  rw [ImageWrapper.load, if_pos h]

/-- Helper: `load` on a `LOADING` or `LOADED` wrapper does nothing. -/
theorem ImageWrapper.load_inactive (w : ImageWrapper)
    (h : w.state = ImageState.LOADING ∨ w.state = ImageState.LOADED) :
    ImageWrapper.load w = (w, []) := by
  rcases h with h | h <;> rw [ImageWrapper.load, if_neg] <;> simp [h]

/-- Helper: `unlistenImage_` on a non-null listener-key list deregisters
every key and nulls the list. -/
theorem ImageWrapper.unlistenImage_some (w : ImageWrapper)
    (ks : List EventsKey) (h : w.imageListenerKeys_ = some ks) :
    ImageWrapper.unlistenImage_ w =
      some ({ w with imageListenerKeys_ := none }, ks.map Effect.unlisten) := by
  rw [ImageWrapper.unlistenImage_, h]

/-- Helper: the failure handler on a wrapper with registered listeners. -/
theorem ImageWrapper.handleImageError_some (w : ImageWrapper)
    (ks : List EventsKey) (h : w.imageListenerKeys_ = some ks) :
    ImageWrapper.handleImageError_ w =
      some ({ w with state := ImageState.ERROR, imageListenerKeys_ := none },
        ks.map Effect.unlisten ++ [Effect.changed]) := by
  simp only [ImageWrapper.handleImageError_, ImageWrapper.unlistenImage_, h]

/-- Helper: the success handler on a wrapper with registered listeners:
the final resolution is the stored one if set, else the freshly derived
one. -/
theorem ImageWrapper.handleImageLoad_some (w : ImageWrapper)
    (ks : List EventsKey) (h : w.imageListenerKeys_ = some ks) :
    ImageWrapper.handleImageLoad_ w =
      some ({ w with
          resolution :=
            some (w.resolution.getD (getHeight w.extent / w.image_.height))
          state := ImageState.LOADED
          imageListenerKeys_ := none },
        ks.map Effect.unlisten ++ [Effect.changed]) := by
  cases hr : w.resolution with
  | none =>
      simp only [ImageWrapper.handleImageLoad_, hr,
        ImageWrapper.unlistenImage_, h, Option.getD]
  | some r =>
      simp only [ImageWrapper.handleImageLoad_, hr,
        ImageWrapper.unlistenImage_, h, Option.getD]

/-- Helper: a single environment step preserves the invariant that the
listener-key list is non-null exactly while the state is `LOADING`. -/
theorem step_preserves_inv (w : ImageWrapper) (ev : EnvEvent)
    (w1 : ImageWrapper) (tr : List Effect)
    (ih : w.imageListenerKeys_.isSome ↔ w.state = ImageState.LOADING)
    (h : step w ev = some (w1, tr)) :
    w1.imageListenerKeys_.isSome ↔ w1.state = ImageState.LOADING := by
  cases ev with
  | loadCall =>
      have h2 : ImageWrapper.load w = (w1, tr) := by
        simpa [step] using h
      have h3 : w1 = (ImageWrapper.load w).1 := by rw [h2]
      subst h3
      by_cases hs : w.state = ImageState.IDLE ∨ w.state = ImageState.ERROR
      · rw [ImageWrapper.load_active w hs]
        simp
      · rw [ImageWrapper.load, if_neg hs]
        exact ih
  | success hgt =>
      by_cases hk : w.imageListenerKeys_.isSome
      · obtain ⟨ks, hks⟩ := Option.isSome_iff_exists.mp hk
        have h2 := ImageWrapper.handleImageLoad_some
          { w with image_ := { w.image_ with height := hgt } } ks hks
        simp only [step, hk, if_true] at h
        rw [h2] at h
        simp only [Option.some.injEq, Prod.mk.injEq] at h
        rw [← h.1]
        simp
      · have hx : step w (EnvEvent.success hgt) = some (w, []) := by
          simp [step, hk]
        rw [hx] at h
        injection h with h
        have h1 : w = w1 := congrArg Prod.fst h
        rw [← h1]
        exact ih
  | failure =>
      by_cases hk : w.imageListenerKeys_.isSome
      · obtain ⟨ks, hks⟩ := Option.isSome_iff_exists.mp hk
        have h2 := ImageWrapper.handleImageError_some w ks hks
        simp only [step, hk, if_true] at h
        rw [h2] at h
        simp only [Option.some.injEq, Prod.mk.injEq] at h
        rw [← h.1]
        simp
      · have hx : step w EnvEvent.failure = some (w, []) := by
          simp [step, hk]
        rw [hx] at h
        injection h with h
        have h1 : w = w1 := congrArg Prod.fst h
        rw [← h1]
        exact ih
  | setImageCall r =>
      simp only [step, Option.some.injEq, Prod.mk.injEq] at h
      rw [← h.1]
      exact ih

/-- Helper: in every reachable configuration the listener-key list is
non-null exactly while the state is `LOADING`. -/
theorem keys_iff_loading (w : ImageWrapper) (hw : Reachable w) :
    w.imageListenerKeys_.isSome ↔ w.state = ImageState.LOADING := by
  induction hw with
  | init e res pr src co => simp [ImageWrapper.new]
  | step w ev w1 tr hr hstep ih => exact step_preserves_inv w ev w1 tr ih hstep

/-- Helper: no environment step crashes (returns `none`) from a state
satisfying the listener/state invariant. -/
theorem step_total (w : ImageWrapper) (ev : EnvEvent) :
    (step w ev).isSome := by
  cases ev with
  | loadCall => simp [step]
  | success hgt =>
      by_cases hk : w.imageListenerKeys_.isSome
      · obtain ⟨ks, hks⟩ := Option.isSome_iff_exists.mp hk
        have h2 := ImageWrapper.handleImageLoad_some
          { w with image_ := { w.image_ with height := hgt } } ks hks
        simp [step, hk, h2]
      · simp [step, hk]
  | failure =>
      by_cases hk : w.imageListenerKeys_.isSome
      · obtain ⟨ks, hks⟩ := Option.isSome_iff_exists.mp hk
        have h2 := ImageWrapper.handleImageError_some w ks hks
        simp [step, hk, h2]
      · simp [step, hk]
  | setImageCall r => simp [step]

/-- Helper: the success handler crashes on a null listener-key list. -/
theorem ImageWrapper.handleImageLoad_none (w : ImageWrapper)
    (h : w.imageListenerKeys_ = none) :
    ImageWrapper.handleImageLoad_ w = none := by
  cases hr : w.resolution with
  | none => simp only [ImageWrapper.handleImageLoad_, hr,
      ImageWrapper.unlistenImage_, h]
  | some r => simp only [ImageWrapper.handleImageLoad_, hr,
      ImageWrapper.unlistenImage_, h]

/-- Helper: the failure handler crashes on a null listener-key list. -/
theorem ImageWrapper.handleImageError_none (w : ImageWrapper)
    (h : w.imageListenerKeys_ = none) :
    ImageWrapper.handleImageError_ w = none := by
  simp only [ImageWrapper.handleImageError_, ImageWrapper.unlistenImage_, h]

/-- Helper: delivering the success signal to a wrapper with registered
listeners records the decoded height and runs the success handler. -/
theorem step_success_loaded (w : ImageWrapper) (ks : List EventsKey)
    (h : w.imageListenerKeys_ = some ks) (hgt : ℚ) :
    step w (EnvEvent.success hgt) =
      some ({ w with
          image_ := { w.image_ with height := hgt }
          resolution := some (w.resolution.getD (getHeight w.extent / hgt))
          state := ImageState.LOADED
          imageListenerKeys_ := none },
        ks.map Effect.unlisten ++ [Effect.changed]) := by
  have hk : w.imageListenerKeys_.isSome = true := by rw [h]; rfl
  have h2 := ImageWrapper.handleImageLoad_some
    { w with image_ := { w.image_ with height := hgt } } ks h
  simp only [step]
  rw [if_pos hk]
  exact h2

/-- Helper: delivering the failure signal to a wrapper with registered
listeners runs the failure handler. -/
theorem step_failure_error (w : ImageWrapper) (ks : List EventsKey)
    (h : w.imageListenerKeys_ = some ks) :
    step w EnvEvent.failure =
      some ({ w with state := ImageState.ERROR, imageListenerKeys_ := none },
        ks.map Effect.unlisten ++ [Effect.changed]) := by
  have hk : w.imageListenerKeys_.isSome = true := by rw [h]; rfl
  simp only [step]
  rw [if_pos hk]
  exact ImageWrapper.handleImageError_some w ks h

/-- Helper: a completion-handler trace (deregistrations followed by one
"changed") contains no load-function invocation. -/
theorem countLoadFn_unlisten_changed (ks : List EventsKey) :
    countLoadFn (ks.map Effect.unlisten ++ [Effect.changed]) = 0 := by
  induction ks with
  | nil => rfl
  | cons k ks _ => simp [countLoadFn, List.countP_cons]

/-- A freshly constructed wrapper used by the concrete witnesses: extent
of height 100 (minY 0, maxY 100), resolution unset. -/
def wIdle : ImageWrapper :=
  ImageWrapper.new ⟨0, 0, 10, 100⟩ none 1 "urlA" none

/-- The wrapper right after `load()` on `wIdle`: state `LOADING`, both
one-shot listener keys registered. -/
def wLoadingEx : ImageWrapper :=
  (ImageWrapper.load wIdle).1

/-- C1: calling `load()` while the state is `Loading` or `Loaded` is a
no-op — the wrapper is returned unchanged in every field (lifecycle state,
raster handle, listener-key list), the effect trace is empty, and in
particular no "changed" notification is emitted by the call. -/
theorem C1_load_noop_when_loading_or_loaded (w : ImageWrapper)
    (h : w.state = ImageState.LOADING ∨ w.state = ImageState.LOADED) :
    ImageWrapper.load w = (w, []) ∧
    Effect.changed ∉ (ImageWrapper.load w).2 := by
  have h0 := ImageWrapper.load_inactive w h
  refine ⟨h0, ?_⟩
  rw [h0]
  simp

/-- C1 witness: `load()` on the concrete `LOADING` wrapper `wLoadingEx`
changes nothing and emits nothing. -/
theorem C1_witness :
    ImageWrapper.load wLoadingEx = (wLoadingEx, []) ∧
    Effect.changed ∉ (ImageWrapper.load wLoadingEx).2 :=
  C1_load_noop_when_loading_or_loaded wLoadingEx (Or.inl rfl)

/-- C2: the configured image load function is invoked exactly once by a
`load()` call that performs an `Idle→Loading` or `Error→Loading`
transition, never by a `load()` call arriving while the state is already
`Loading` or `Loaded` (so two consecutive `load()` calls with no
intervening completion invoke it exactly once), and never by either
completion handler. -/
theorem C2_loadFunction_invoked_once_per_transition (w : ImageWrapper) :
    ((w.state = ImageState.LOADING ∨ w.state = ImageState.LOADED) →
      countLoadFn (ImageWrapper.load w).2 = 0) ∧
    ((w.state = ImageState.IDLE ∨ w.state = ImageState.ERROR) →
      countLoadFn (ImageWrapper.load w).2 = 1 ∧
      countLoadFn (ImageWrapper.load (ImageWrapper.load w).1).2 = 0) ∧
    (∀ w1 tr, ImageWrapper.handleImageLoad_ w = some (w1, tr) →
      countLoadFn tr = 0) ∧
    (∀ w1 tr, ImageWrapper.handleImageError_ w = some (w1, tr) →
      countLoadFn tr = 0) := by
  refine ⟨?_, ?_, ?_, ?_⟩
  · intro h
    rw [ImageWrapper.load_inactive w h]
    rfl
  · intro h
    rw [ImageWrapper.load_active w h]
    exact ⟨rfl, by rw [ImageWrapper.load_inactive _ (Or.inl rfl)]; rfl⟩
  · intro w1 tr h
    cases hks : w.imageListenerKeys_ with
    | none => rw [ImageWrapper.handleImageLoad_none w hks] at h; cases h
    | some ks =>
        rw [ImageWrapper.handleImageLoad_some w ks hks] at h
        injection h with h
        have h2 : tr = ks.map Effect.unlisten ++ [Effect.changed] :=
          (congrArg Prod.snd h).symm
        rw [h2]
        exact countLoadFn_unlisten_changed ks
  · intro w1 tr h
    cases hks : w.imageListenerKeys_ with
    | none => rw [ImageWrapper.handleImageError_none w hks] at h; cases h
    | some ks =>
        rw [ImageWrapper.handleImageError_some w ks hks] at h
        injection h with h
        have h2 : tr = ks.map Effect.unlisten ++ [Effect.changed] :=
          (congrArg Prod.snd h).symm
        rw [h2]
        exact countLoadFn_unlisten_changed ks

/-- C2 witness: on the concrete idle wrapper `wIdle`, the first `load()`
invokes the load function once and an immediately repeated `load()`
invokes it zero further times. -/
theorem C2_witness :
    countLoadFn (ImageWrapper.load wIdle).2 = 1 ∧
    countLoadFn (ImageWrapper.load (ImageWrapper.load wIdle).1).2 = 0 :=
  ((C2_loadFunction_invoked_once_per_transition wIdle).2.1 (Or.inl rfl))

/-- C3: during a `Loading` episode (both listener keys registered), the
success handler ends with state `Loaded` and the failure handler with
state `Error`, and in both cases the effect trace is exactly the
deregistration of every stored listener key followed by the single
"changed" notification — i.e. both one-shot listeners are deregistered
strictly before "changed" is emitted. -/
theorem C3_completion_handlers_order (w : ImageWrapper)
    (ks : List EventsKey) (h : w.imageListenerKeys_ = some ks) :
    (∃ w1, ImageWrapper.handleImageLoad_ w =
        some (w1, ks.map Effect.unlisten ++ [Effect.changed]) ∧
      w1.state = ImageState.LOADED ∧ w1.imageListenerKeys_ = none) ∧
    (∃ w1, ImageWrapper.handleImageError_ w =
        some (w1, ks.map Effect.unlisten ++ [Effect.changed]) ∧
      w1.state = ImageState.ERROR ∧ w1.imageListenerKeys_ = none) :=
  ⟨⟨_, ImageWrapper.handleImageLoad_some w ks h, rfl, rfl⟩,
   ⟨_, ImageWrapper.handleImageError_some w ks h, rfl, rfl⟩⟩

/-- C3 witness: both completion handlers on the concrete loading wrapper
`wLoadingEx` deregister the two keys before emitting "changed". -/
theorem C3_witness :
    (∃ w1, ImageWrapper.handleImageLoad_ wLoadingEx =
        some (w1, [EventsKey.error, EventsKey.load].map Effect.unlisten ++
          [Effect.changed]) ∧
      w1.state = ImageState.LOADED ∧ w1.imageListenerKeys_ = none) ∧
    (∃ w1, ImageWrapper.handleImageError_ wLoadingEx =
        some (w1, [EventsKey.error, EventsKey.load].map Effect.unlisten ++
          [Effect.changed]) ∧
      w1.state = ImageState.ERROR ∧ w1.imageListenerKeys_ = none) :=
  C3_completion_handlers_order wLoadingEx [EventsKey.error, EventsKey.load] rfl

/-- C4: on a successful completion, if the resolution is still unset it
becomes extent height divided by the raster's pixel height, and if it is
already set (e.g. by a previous successful completion) it is left exactly
as it was — the computation happens at most once. -/
theorem C4_resolution_computed_once (w : ImageWrapper)
    (ks : List EventsKey) (h : w.imageListenerKeys_ = some ks) :
    (w.resolution = none →
      ∃ w1 tr, ImageWrapper.handleImageLoad_ w = some (w1, tr) ∧
        w1.resolution = some (getHeight w.extent / w.image_.height) ∧
        w1.state = ImageState.LOADED) ∧
    (∀ r, w.resolution = some r →
      ∃ w1 tr, ImageWrapper.handleImageLoad_ w = some (w1, tr) ∧
        w1.resolution = some r ∧ w1.state = ImageState.LOADED) := by
  constructor
  · intro hr
    refine ⟨_, _, ImageWrapper.handleImageLoad_some w ks h, ?_, rfl⟩
    simp [hr]
  · intro r hr
    refine ⟨_, _, ImageWrapper.handleImageLoad_some w ks h, ?_, rfl⟩
    simp [hr]

/-- The loading wrapper right before its success handler runs in the
spec's scenario: extent height 100, resolution unset, decoded pixel
height 50. -/
def wC4pre : ImageWrapper :=
  { wLoadingEx with image_ := { wLoadingEx.image_ with height := 50 } }

/-- C4 witness (the spec's scenario): extent height 100 and decoded pixel
height 50 yield resolution 2 and state `Loaded`. -/
theorem C4_witness :
    ∃ w1 tr, ImageWrapper.handleImageLoad_ wC4pre = some (w1, tr) ∧
      w1.resolution = some 2 ∧ w1.state = ImageState.LOADED := by
  obtain ⟨w1, tr, h1, h2, h3⟩ :=
    (C4_resolution_computed_once wC4pre [EventsKey.error, EventsKey.load]
      rfl).1 rfl
  refine ⟨w1, tr, h1, ?_, h3⟩
  rw [h2]
  norm_num [wC4pre, wLoadingEx, wIdle, ImageWrapper.new, ImageWrapper.load,
    getHeight]

/-- A concrete wrapper resting in state `Loaded` after a successful load
episode. -/
def wLoadedEx : ImageWrapper :=
  { extent := ⟨0, 0, 10, 100⟩
    resolution := some 2
    pixelRatio := 1
    src_ := "urlA"
    image_ := { height := 50, crossOrigin := none }
    imageListenerKeys_ := none
    state := ImageState.LOADED }

/-- C5 counterexample: on the concrete `Loaded` wrapper `wLoadedEx`, a
fresh `load()` call does not re-enter `Loading` — the state stays
`Loaded` — so `Loaded` is not re-enterable via `load()` as the claim
states. -/
theorem C5_counterexample :
    (ImageWrapper.load wLoadedEx).1.state = ImageState.LOADED ∧
    ¬ (ImageWrapper.load wLoadedEx).1.state = ImageState.LOADING := by
  decide

/-- C5 amended: `Error` is not terminal — from `Error` a fresh `load()`
re-enters `Loading`, and a subsequent success signal ends in `Loaded`
(retry works), so the machine is cyclic through `Error`; `Loaded`,
however, is absorbing under `load()`: the call is a no-op there. -/
theorem C5_amended_retry_from_error (w : ImageWrapper) (hgt : ℚ) :
    (w.state = ImageState.ERROR →
      (ImageWrapper.load w).1.state = ImageState.LOADING ∧
      ∃ w2 tr, step (ImageWrapper.load w).1 (EnvEvent.success hgt) =
          some (w2, tr) ∧ w2.state = ImageState.LOADED) ∧
    (w.state = ImageState.LOADED → ImageWrapper.load w = (w, [])) := by
  constructor
  · intro h
    rw [ImageWrapper.load_active w (Or.inr h)]
    refine ⟨rfl, ?_⟩
    exact ⟨_, _,
      step_success_loaded _ [EventsKey.error, EventsKey.load] rfl hgt, rfl⟩
  · intro h
    exact ImageWrapper.load_inactive w (Or.inr h)

/-- A concrete wrapper resting in state `Error` after a failed load
episode. -/
def wErrorEx : ImageWrapper :=
  { extent := ⟨0, 0, 10, 100⟩
    resolution := none
    pixelRatio := 1
    src_ := "urlB"
    image_ := { height := 0, crossOrigin := none }
    imageListenerKeys_ := none
    state := ImageState.ERROR }

/-- C5 witness: retry from the concrete `Error` wrapper `wErrorEx`
re-enters `Loading` and a success signal then ends in `Loaded`, while
`load()` on the concrete `Loaded` wrapper `wLoadedEx` is a no-op. -/
theorem C5_witness :
    ((ImageWrapper.load wErrorEx).1.state = ImageState.LOADING ∧
      ∃ w2 tr, step (ImageWrapper.load wErrorEx).1 (EnvEvent.success 50) =
          some (w2, tr) ∧ w2.state = ImageState.LOADED) ∧
    ImageWrapper.load wLoadedEx = (wLoadedEx, []) :=
  ⟨(C5_amended_retry_from_error wErrorEx 50).1 rfl,
   (C5_amended_retry_from_error wLoadedEx 50).2 rfl⟩

/-- C6: along every reachable execution, each environment step either
keeps the state unchanged or performs one of the allowed transitions
`Idle → Loading`, `Error → Loading`, `Loading → Loaded`,
`Loading → Error`; no other transition (such as `Idle → Loaded` or
`Loading → Loading`) is possible via `load()` and the two completion
handlers. -/
theorem C6_transitions_monotonic (w : ImageWrapper) (ev : EnvEvent)
    (w1 : ImageWrapper) (tr : List Effect) (hw : Reachable w)
    (h : step w ev = some (w1, tr)) :
    allowedTransition w.state w1.state := by
  have hinv := keys_iff_loading w hw
  cases ev with
  | loadCall =>
      have h2 : ImageWrapper.load w = (w1, tr) := by simpa [step] using h
      have h3 : w1 = (ImageWrapper.load w).1 := by rw [h2]
      subst h3
      by_cases hs : w.state = ImageState.IDLE ∨ w.state = ImageState.ERROR
      · rw [ImageWrapper.load_active w hs]
        rcases hs with hs | hs
        · exact Or.inr (Or.inl ⟨hs, rfl⟩)
        · exact Or.inr (Or.inr (Or.inl ⟨hs, rfl⟩))
      · rw [ImageWrapper.load, if_neg hs]
        exact Or.inl rfl
  | success hgt =>
      by_cases hk : w.imageListenerKeys_.isSome
      · have hL : w.state = ImageState.LOADING := hinv.mp hk
        obtain ⟨ks, hks⟩ := Option.isSome_iff_exists.mp hk
        rw [step_success_loaded w ks hks hgt] at h
        injection h with h
        have h1 : _ = w1 := congrArg Prod.fst h
        rw [← h1]
        exact Or.inr (Or.inr (Or.inr (Or.inl ⟨hL, rfl⟩)))
      · have hx : step w (EnvEvent.success hgt) = some (w, []) := by
          simp [step, hk]
        rw [hx] at h
        injection h with h
        have h1 : w = w1 := congrArg Prod.fst h
        rw [← h1]
        exact Or.inl rfl
  | failure =>
      by_cases hk : w.imageListenerKeys_.isSome
      · have hL : w.state = ImageState.LOADING := hinv.mp hk
        obtain ⟨ks, hks⟩ := Option.isSome_iff_exists.mp hk
        rw [step_failure_error w ks hks] at h
        injection h with h
        have h1 : _ = w1 := congrArg Prod.fst h
        rw [← h1]
        exact Or.inr (Or.inr (Or.inr (Or.inr ⟨hL, rfl⟩)))
      · have hx : step w EnvEvent.failure = some (w, []) := by
          simp [step, hk]
        rw [hx] at h
        injection h with h
        have h1 : w = w1 := congrArg Prod.fst h
        rw [← h1]
        exact Or.inl rfl
  | setImageCall r =>
      simp only [step, Option.some.injEq, Prod.mk.injEq] at h
      rw [← h.1]
      exact Or.inl rfl

/-- C6 witness: the concrete first step (a `load()` call on the freshly
constructed `wIdle`) performs an allowed transition. -/
theorem C6_witness :
    allowedTransition wIdle.state (ImageWrapper.load wIdle).1.state :=
  C6_transitions_monotonic wIdle EnvEvent.loadCall
    (ImageWrapper.load wIdle).1 (ImageWrapper.load wIdle).2
    (Reachable.init ⟨0, 0, 10, 100⟩ none 1 "urlA" none) rfl

/-- C7: no environment step from a reachable configuration crashes — in
particular `load()` and the failure handler return normally — and from a
`Loading` state a failure is surfaced purely as a transition to `Error`
together with a "changed" notification in the trace. -/
theorem C7_failure_raises_no_exception (w : ImageWrapper)
    (hw : Reachable w) :
    (∀ ev, (step w ev).isSome) ∧
    (w.state = ImageState.LOADING →
      ∃ w1 tr, step w EnvEvent.failure = some (w1, tr) ∧
        w1.state = ImageState.ERROR ∧ Effect.changed ∈ tr) := by
  refine ⟨fun ev => step_total w ev, ?_⟩
  intro hL
  have hk := (keys_iff_loading w hw).mpr hL
  obtain ⟨ks, hks⟩ := Option.isSome_iff_exists.mp hk
  exact ⟨_, _, step_failure_error w ks hks, rfl, by simp⟩

/-- C7 witness: on the concrete reachable loading wrapper `wLoadingEx`,
the failure signal returns normally, ends in `Error` and emits
"changed". -/
theorem C7_witness :
    ∃ w1 tr, step wLoadingEx EnvEvent.failure = some (w1, tr) ∧
      w1.state = ImageState.ERROR ∧ Effect.changed ∈ tr :=
  (C7_failure_raises_no_exception wLoadingEx
    (Reachable.step wIdle EnvEvent.loadCall (ImageWrapper.load wIdle).1
      (ImageWrapper.load wIdle).2
      (Reachable.init ⟨0, 0, 10, 100⟩ none 1 "urlA" none) rfl)).2 rfl

/-- C8: `setImage(h)` performs no lifecycle transition and changes no
field other than the raster handle, and `getImage()` immediately
afterwards returns exactly the injected handle. -/
theorem C8_setImage_no_state_transition (w : ImageWrapper) (r : Raster) :
    (w.setImage r).state = w.state ∧
    (w.setImage r).resolution = w.resolution ∧
    (w.setImage r).extent = w.extent ∧
    (w.setImage r).pixelRatio = w.pixelRatio ∧
    (w.setImage r).src_ = w.src_ ∧
    (w.setImage r).imageListenerKeys_ = w.imageListenerKeys_ ∧
    (w.setImage r).getImage = r :=
  ⟨rfl, rfl, rfl, rfl, rfl, rfl, rfl⟩

/-- C9: in every reachable configuration the stored listener-key list is
non-null exactly while the state is `Loading`; consequently the
completion signals (the only callers of `unlistenImage_`) never crash,
and `unlistenImage_` itself succeeds whenever the key list is
non-null. -/
theorem C9_listener_keys_nonnull_iff_loading (w : ImageWrapper)
    (hw : Reachable w) :
    (w.imageListenerKeys_.isSome ↔ w.state = ImageState.LOADING) ∧
    (∀ hgt, (step w (EnvEvent.success hgt)).isSome) ∧
    (step w EnvEvent.failure).isSome ∧
    (w.imageListenerKeys_.isSome →
      (ImageWrapper.unlistenImage_ w).isSome) := by
  refine ⟨keys_iff_loading w hw, fun hgt => step_total w _, step_total w _,
    ?_⟩
  intro hk
  obtain ⟨ks, hks⟩ := Option.isSome_iff_exists.mp hk
  rw [ImageWrapper.unlistenImage_some w ks hks]
  rfl

/-- C9 witness: the invariant and crash-freedom hold at the concrete
reachable loading wrapper `wLoadingEx`. -/
theorem C9_witness :
    (wLoadingEx.imageListenerKeys_.isSome ↔
      wLoadingEx.state = ImageState.LOADING) ∧
    (∀ hgt, (step wLoadingEx (EnvEvent.success hgt)).isSome) ∧
    (step wLoadingEx EnvEvent.failure).isSome ∧
    (wLoadingEx.imageListenerKeys_.isSome →
      (ImageWrapper.unlistenImage_ wLoadingEx).isSome) :=
  C9_listener_keys_nonnull_iff_loading wLoadingEx
    (Reachable.step wIdle EnvEvent.loadCall (ImageWrapper.load wIdle).1
      (ImageWrapper.load wIdle).2
      (Reachable.init ⟨0, 0, 10, 100⟩ none 1 "urlA" none) rfl)

/-- C10: at content-initialization time the `StyleComponent` performs
exactly one `setStyle` push of the freshly built style to its host
feature, and that push happens strictly before the subscription to the
child directive's change notification — so the host has received a style
exactly once even if no input ever changes afterwards. -/
theorem C10_style_pushed_once_before_subscribing (c : StyleComponent)
    (d : StyleIconInputs) :
    (StyleComponent.ngAfterContentInit c d).2 =
      [SCEffect.setStyle (buildStyle d), SCEffect.subscribeChild] ∧
    countSetStyle (StyleComponent.ngAfterContentInit c d).2 = 1 ∧
    (StyleComponent.ngAfterContentInit c d).1.hostF.style =
      some (buildStyle d) ∧
    (StyleComponent.ngAfterContentInit c d).1.subscribed = true :=
  ⟨rfl, rfl, rfl, rfl⟩
